import Mathlib

/- Shallow embedding of src/main.rs of ftp-paperless-bridge: the Paperless
   ingestion client (task_status), the FTP storage backend (put and the stub
   operations), the username/password authenticator, and the startup sequence
   of main. Machine integers of the source are modelled as Nat; fallible calls
   are modelled with Except. -/

namespace Bridge

/-- Authenticated user value handed back by a successful authentication;
main.rs struct User (no fields). -/
structure User where
deriving DecidableEq

/-- The piece of libunftp Credentials read by authenticate: the optional
presented password. -/
structure Credentials where
  password : Option String
deriving DecidableEq

/-- The two libunftp AuthenticationError variants produced by main.rs. -/
inductive AuthenticationError where
  | BadUser
  | BadPassword
deriving DecidableEq

/-- Configured credential pair; main.rs struct UsernamePasswordAuthenticator
(lines 405-415). -/
structure UsernamePasswordAuthenticator where
  username : String
  password : String
deriving DecidableEq

/-- Condition of the first early return of authenticate (main.rs lines
425-430): the client presented a password and it differs from the configured
one. When no password is presented the check is vacuously false. -/
def badPasswordCheck (a : UsernamePasswordAuthenticator) (creds : Credentials) : Bool :=
  match creds.password with
  | some password => password != a.password
  | none => false

/-- Authenticator::authenticate (main.rs lines 419-438): first reject with
BadPassword when a presented password mismatches, then reject with BadUser
when the username mismatches, otherwise grant a User. -/
def authenticate (a : UsernamePasswordAuthenticator) (username : String)
    (creds : Credentials) : Except AuthenticationError User :=
  if badPasswordCheck a creds then Except.error AuthenticationError.BadPassword
  else if username != a.username then Except.error AuthenticationError.BadUser
  else Except.ok ⟨⟩

/-- Deserialized element of the tasks endpoint response; main.rs struct
TaskStatus (lines 131-134), whose status field is a required String. -/
structure TaskStatus where
  status : String
deriving DecidableEq

/-- Wire-level element of the tasks endpoint JSON array before serde
deserialization: statusField records whether a status field is present and,
when it is, its value. -/
structure RawTask where
  statusField : Option String
deriving DecidableEq

/-- Serde deserialization of one TaskStatus: the status field is required, so
an element lacking it fails deserialization with an error. -/
def deserializeTask (r : RawTask) : Except Unit TaskStatus :=
  match r.statusField with
  | some s => Except.ok ⟨s⟩
  | none => Except.error ()

/-- Serde deserialization of the Vec of TaskStatus: elementwise, failing on
the first element that does not deserialize. -/
def deserializeTasks : List RawTask → Except Unit (List TaskStatus)
  | [] => Except.ok []
  | r :: rest =>
    match deserializeTask r with
    | Except.error e => Except.error e
    | Except.ok t =>
      match deserializeTasks rest with
      | Except.error e => Except.error e
      | Except.ok ts => Except.ok (t :: ts)

/-- PaperlessClient::task_status (main.rs lines 175-189): deserialize the
response array and return its first element, defaulting to status PENDING
when the array is empty (into_iter().next().unwrap_or(PENDING)). A response
that fails to deserialize is an error of the call. -/
def task_status (resp : List RawTask) : Except Unit TaskStatus :=
  match deserializeTasks resp with
  | Except.error e => Except.error e
  | Except.ok tasks => Except.ok (tasks.headD ⟨"PENDING"⟩)

/-- One observation made by the polling loop body of put: the task_status
call either errs (transient lookup error) or yields a status string. -/
inductive PollObs where
  | err
  | ok (status : String)
deriving DecidableEq

/-- One iteration of the polling loop: the observation, plus the seconds the
status lookup itself took (the fixed sleep is accounted separately). -/
structure PollStep where
  obs : PollObs
  dur : Nat
deriving DecidableEq

/-- Sleep interval of the polling loop: Duration::from_secs(1), main.rs
line 322. -/
def sleepSecs : Nat := 1

/-- Polling deadline: Duration::from_secs(10), main.rs lines 328 and 353. -/
def deadlineSecs : Nat := 10

/-- Elapsed seconds after one more loop iteration: the previous elapsed time,
plus the fixed sleep, plus the duration of the status lookup itself. -/
def stepElapsed (t : Nat) (s : PollStep) : Nat := t + sleepSecs + s.dur

/-- Terminal outcome of the polling loop inside put (main.rs lines 320-360). -/
inductive PollOutcome where
  | succeeded
  | remoteFailed
  | timedOut
  | lookupErrTimedOut
deriving DecidableEq

/-- The polling loop of put (main.rs lines 320-360), over the elapsed clock
started at entry (Instant::now() at line 320): each iteration sleeps then
looks up the task status; a lookup error past the deadline aborts with a
timeout cause, otherwise it is absorbed and polling continues; SUCCESS breaks
out successfully (checked before the deadline); FAILURE and REVOKED abort;
any other status continues unless the deadline has passed. Returns none when
the given observation list runs out with the loop still running. -/
def pollLoop : Nat → List PollStep → Option PollOutcome
  | _, [] => none
  | t, s :: rest =>
    let t' := stepElapsed t s
    match s.obs with
    | PollObs.err =>
      if deadlineSecs < t' then some PollOutcome.lookupErrTimedOut
      else pollLoop t' rest
    | PollObs.ok st =>
      if st = "SUCCESS" then some PollOutcome.succeeded
      else if st = "FAILURE" ∨ st = "REVOKED" then some PollOutcome.remoteFailed
      else if deadlineSecs < t' then some PollOutcome.timedOut
      else pollLoop t' rest

/-- The same loop over an absolute clock: t is absolute time and the deadline
test compares now.elapsed(), that is absolute time minus pollStart, against
the deadline; pollStart is the absolute time Instant::now() was taken at
entry to the loop (main.rs line 320). -/
def pollLoopAbs (pollStart : Nat) : Nat → List PollStep → Option PollOutcome
  | _, [] => none
  | t, s :: rest =>
    let t' := stepElapsed t s
    match s.obs with
    | PollObs.err =>
      if deadlineSecs < t' - pollStart then some PollOutcome.lookupErrTimedOut
      else pollLoopAbs pollStart t' rest
    | PollObs.ok st =>
      if st = "SUCCESS" then some PollOutcome.succeeded
      else if st = "FAILURE" ∨ st = "REVOKED" then some PollOutcome.remoteFailed
      else if deadlineSecs < t' - pollStart then some PollOutcome.timedOut
      else pollLoopAbs pollStart t' rest

/-- Cause attached to a failed result of put; all four are returned as
libunftp storage errors of kind LocalError in the source. -/
inductive PutCause where
  | copyFailed
  | submitFailed
  | lookupErrTimedOut
  | remoteTaskFailed
  | uploadTimedOut
deriving DecidableEq

/-- Result of put: Ok with the copied byte count, or an error with its cause. -/
inductive PutResult where
  | ok (bytes : Nat)
  | err (cause : PutCause)
deriving DecidableEq

/-- True exactly on a successful put result. -/
def PutResult.isOk : PutResult → Bool
  | PutResult.ok _ => true
  | PutResult.err _ => false

/-- The byte count of a successful put result, none on an error. -/
def PutResult.bytes? : PutResult → Option Nat
  | PutResult.ok b => some b
  | PutResult.err _ => none

/-- Observable effects of one call of StorageBackend::put (main.rs lines
277-363): staged temp file length and write-cursor position before the
stream copy, final staged length, length of the file handed to the remote
submission when reached, whether the staged file is removed by the time the
call returns, and the returned result. -/
structure PutTrace where
  tempLenBeforeCopy : Nat
  cursorBeforeCopy : Nat
  tempLenFinal : Nat
  submitted : Option Nat
  tempRemoved : Bool
  result : PutResult
deriving DecidableEq

/-- StorageBackend::put (main.rs lines 277-363): create a temp file, set_len
to start_pos and seek there, copy the stream (copyRes carries the copied byte
count, or a local I/O error which aborts the call), submit the staged file
(submitRes carries the task id, or an error which aborts the call), then run
the polling loop. The async_tempfile TempFile is owned by the call and
dropped, hence the staged file removed, on every return path. On a copy error
the partial staged length is not observable; the model reports the pre-copy
length there. Returns none when the polling observations run out. -/
def put (start_pos : Nat) (copyRes : Except Unit Nat) (submitRes : Except Unit String)
    (steps : List PollStep) : Option PutTrace :=
  match copyRes with
  | Except.error _ =>
    some { tempLenBeforeCopy := start_pos, cursorBeforeCopy := start_pos,
           tempLenFinal := start_pos, submitted := none, tempRemoved := true,
           result := PutResult.err PutCause.copyFailed }
  | Except.ok bytes_copied =>
    match submitRes with
    | Except.error _ =>
      some { tempLenBeforeCopy := start_pos, cursorBeforeCopy := start_pos,
             tempLenFinal := start_pos + bytes_copied, submitted := none,
             tempRemoved := true, result := PutResult.err PutCause.submitFailed }
    | Except.ok _task_id =>
      match pollLoop 0 steps with
      | none => none
      | some PollOutcome.succeeded =>
        some { tempLenBeforeCopy := start_pos, cursorBeforeCopy := start_pos,
               tempLenFinal := start_pos + bytes_copied,
               submitted := some (start_pos + bytes_copied), tempRemoved := true,
               result := PutResult.ok bytes_copied }
      | some PollOutcome.remoteFailed =>
        some { tempLenBeforeCopy := start_pos, cursorBeforeCopy := start_pos,
               tempLenFinal := start_pos + bytes_copied,
               submitted := some (start_pos + bytes_copied), tempRemoved := true,
               result := PutResult.err PutCause.remoteTaskFailed }
      | some PollOutcome.timedOut =>
        some { tempLenBeforeCopy := start_pos, cursorBeforeCopy := start_pos,
               tempLenFinal := start_pos + bytes_copied,
               submitted := some (start_pos + bytes_copied), tempRemoved := true,
               result := PutResult.err PutCause.uploadTimedOut }
      | some PollOutcome.lookupErrTimedOut =>
        some { tempLenBeforeCopy := start_pos, cursorBeforeCopy := start_pos,
               tempLenFinal := start_pos + bytes_copied,
               submitted := some (start_pos + bytes_copied), tempRemoved := true,
               result := PutResult.err PutCause.lookupErrTimedOut }

/-- put with an explicit absolute clock: t0 is the absolute time the call
starts, stageDur and submitDur the seconds spent staging the stream and
submitting the file; the polling clock (Instant::now(), main.rs line 320) is
taken only after submission returns, at absolute time t0 + stageDur +
submitDur. -/
def putAbs (t0 stageDur submitDur : Nat) (start_pos : Nat) (copyRes : Except Unit Nat)
    (submitRes : Except Unit String) (steps : List PollStep) : Option PutTrace :=
  match copyRes with
  | Except.error _ =>
    some { tempLenBeforeCopy := start_pos, cursorBeforeCopy := start_pos,
           tempLenFinal := start_pos, submitted := none, tempRemoved := true,
           result := PutResult.err PutCause.copyFailed }
  | Except.ok bytes_copied =>
    match submitRes with
    | Except.error _ =>
      some { tempLenBeforeCopy := start_pos, cursorBeforeCopy := start_pos,
             tempLenFinal := start_pos + bytes_copied, submitted := none,
             tempRemoved := true, result := PutResult.err PutCause.submitFailed }
    | Except.ok _task_id =>
      let pollStart := t0 + stageDur + submitDur
      match pollLoopAbs pollStart pollStart steps with
      | none => none
      | some PollOutcome.succeeded =>
        some { tempLenBeforeCopy := start_pos, cursorBeforeCopy := start_pos,
               tempLenFinal := start_pos + bytes_copied,
               submitted := some (start_pos + bytes_copied), tempRemoved := true,
               result := PutResult.ok bytes_copied }
      | some PollOutcome.remoteFailed =>
        some { tempLenBeforeCopy := start_pos, cursorBeforeCopy := start_pos,
               tempLenFinal := start_pos + bytes_copied,
               submitted := some (start_pos + bytes_copied), tempRemoved := true,
               result := PutResult.err PutCause.remoteTaskFailed }
      | some PollOutcome.timedOut =>
        some { tempLenBeforeCopy := start_pos, cursorBeforeCopy := start_pos,
               tempLenFinal := start_pos + bytes_copied,
               submitted := some (start_pos + bytes_copied), tempRemoved := true,
               result := PutResult.err PutCause.uploadTimedOut }
      | some PollOutcome.lookupErrTimedOut =>
        some { tempLenBeforeCopy := start_pos, cursorBeforeCopy := start_pos,
               tempLenFinal := start_pos + bytes_copied,
               submitted := some (start_pos + bytes_copied), tempRemoved := true,
               result := PutResult.err PutCause.lookupErrTimedOut }

/-- Outcome of one storage backend operation as observed by the protocol
engine: a returned value, a returned storage error of the given kind, or a
panic that aborts the operation without returning. -/
inductive StorageOutcome (α : Type) where
  | ok (a : α)
  | errKind (kind : String)
  | panicked (msg : String)
deriving DecidableEq

/-- True exactly when the operation panicked instead of returning. -/
def StorageOutcome.isPanic {α : Type} : StorageOutcome α → Bool
  | StorageOutcome.panicked _ => true
  | _ => false

/-- Directory entry type of list; the stub never produces one. -/
structure Fileinfo where
  path : String
deriving DecidableEq

/-- StorageBackend::list (main.rs lines 255-266): always the empty listing. -/
def list (_u : User) (_path : String) : StorageOutcome (List Fileinfo) :=
  StorageOutcome.ok []

/-- StorageBackend::get (main.rs lines 268-275): the body is unimplemented
and panics with the message not implemented. -/
def get (_u : User) (_path : String) (_start_pos : Nat) : StorageOutcome Unit :=
  StorageOutcome.panicked "not implemented"

/-- StorageBackend::del (main.rs lines 365-371): unimplemented, panics. -/
def del (_u : User) (_path : String) : StorageOutcome Unit :=
  StorageOutcome.panicked "not implemented"

/-- StorageBackend::mkd (main.rs lines 373-379): unimplemented, panics. -/
def mkd (_u : User) (_path : String) : StorageOutcome Unit :=
  StorageOutcome.panicked "not implemented"

/-- StorageBackend::rename (main.rs lines 381-388): unimplemented, panics. -/
def rename (_u : User) (_from _to : String) : StorageOutcome Unit :=
  StorageOutcome.panicked "not implemented"

/-- StorageBackend::rmd (main.rs lines 390-396): unimplemented, panics. -/
def rmd (_u : User) (_path : String) : StorageOutcome Unit :=
  StorageOutcome.panicked "not implemented"

/-- StorageBackend::cwd (main.rs lines 398-402): always Ok, for every path. -/
def cwd (_u : User) (_path : String) : StorageOutcome Unit :=
  StorageOutcome.ok ()

/-- How startup ended in the model of main. -/
inductive StartupOutcome where
  | abortedNonZeroExit
  | serverStarted
deriving DecidableEq

/-- Observable effects of the startup sequence: whether the FTP listener was
ever opened, and how startup ended. -/
structure StartupTrace where
  listenerOpened : Bool
  outcome : StartupOutcome
deriving DecidableEq

/-- Startup sequence of main (main.rs lines 466-503): run the health check
against the remote service; on error return the error, which makes the
process exit nonzero, without ever building the FTP server or opening the
listener; on success build the server and open the listener. -/
def mainStartup (healthRes : Except Unit Unit) : StartupTrace :=
  match healthRes with
  | Except.error _ =>
    { listenerOpened := false, outcome := StartupOutcome.abortedNonZeroExit }
  | Except.ok _ =>
    { listenerOpened := true, outcome := StartupOutcome.serverStarted }

/-- Concrete configured credential pair used in concrete evaluations. -/
def cfgA : UsernamePasswordAuthenticator := ⟨"alice", "secret"⟩

/-- Trace of put at resume offset 2 with 5 streamed bytes and an immediately
successful poll. -/
def trResume : PutTrace :=
  { tempLenBeforeCopy := 2, cursorBeforeCopy := 2, tempLenFinal := 7,
    submitted := some 7, tempRemoved := true, result := PutResult.ok 5 }

/-- Trace of put at offset 0 with 4 streamed bytes and an immediately
successful poll. -/
def trOkFour : PutTrace :=
  { tempLenBeforeCopy := 0, cursorBeforeCopy := 0, tempLenFinal := 4,
    submitted := some 4, tempRemoved := true, result := PutResult.ok 4 }

/-- Trace of put at offset 0 with 3 streamed bytes and an immediately
successful poll. -/
def trOkThree : PutTrace :=
  { tempLenBeforeCopy := 0, cursorBeforeCopy := 0, tempLenFinal := 3,
    submitted := some 3, tempRemoved := true, result := PutResult.ok 3 }

/-- Helper: a PENDING observation is none of the terminal status strings. -/
theorem pending_nonterminal (d : Nat) :
    ∀ st : String, (⟨PollObs.ok "PENDING", d⟩ : PollStep).obs = PollObs.ok st →
      st ≠ "SUCCESS" ∧ st ≠ "FAILURE" ∧ st ≠ "REVOKED" := by
  intro st h
  have h' : PollObs.ok "PENDING" = PollObs.ok st := h
  injection h' with h2
  subst h2
  exact ⟨by decide, by decide, by decide⟩

/-- Helper: an err observation carries no status string at all. -/
theorem err_nonterminal (d : Nat) :
    ∀ st : String, (⟨PollObs.err, d⟩ : PollStep).obs = PollObs.ok st →
      st ≠ "SUCCESS" ∧ st ≠ "FAILURE" ∧ st ≠ "REVOKED" := by
  intro st h
  have h' : PollObs.err = PollObs.ok st := h
  exact PollObs.noConfusion h'

/-- Helper: while within the deadline, an iteration whose observation is a
lookup error or a non-terminal status continues the loop with the advanced
clock. -/
theorem pollLoop_cons_continue (t : Nat) (s : PollStep) (rest : List PollStep)
    (hterm : ∀ st : String, s.obs = PollObs.ok st →
      st ≠ "SUCCESS" ∧ st ≠ "FAILURE" ∧ st ≠ "REVOKED")
    (hc : ¬ deadlineSecs < stepElapsed t s) :
    pollLoop t (s :: rest) = pollLoop (stepElapsed t s) rest := by
  obtain ⟨obs, dur⟩ := s
  cases obs with
  | err =>
    simp only [pollLoop]
    rw [if_neg hc]
  | ok st =>
    obtain ⟨h1, h2, h3⟩ := hterm st rfl
    have h23 : ¬ (st = "FAILURE" ∨ st = "REVOKED") := by
      rintro (hcase | hcase)
      · exact h2 hcase
      · exact h3 hcase
    simp only [pollLoop]
    rw [if_neg h1, if_neg h23, if_neg hc]

/-- Helper: a run of only PENDING observations whose accumulated elapsed time
passes the deadline ends in timedOut. -/
theorem pollLoop_pending_timeout (steps : List PollStep) :
    ∀ t : Nat, (∀ x ∈ steps, x.obs = PollObs.ok "PENDING") → steps ≠ [] →
      deadlineSecs < List.foldl stepElapsed t steps →
      pollLoop t steps = some PollOutcome.timedOut := by
  induction steps with
  | nil => intro t _ hne _; exact absurd rfl hne
  | cons s rest ih =>
    intro t hall _ hfold
    obtain ⟨obs, dur⟩ := s
    have hobs : obs = PollObs.ok "PENDING" := hall ⟨obs, dur⟩ (List.mem_cons_self _ _)
    subst hobs
    rw [List.foldl_cons] at hfold
    by_cases hc : deadlineSecs < stepElapsed t ⟨PollObs.ok "PENDING", dur⟩
    · simp only [pollLoop]
      rw [if_neg (by decide), if_neg (by decide), if_pos hc]
    · cases rest with
      | nil =>
        rw [List.foldl_nil] at hfold
        exact absurd hfold hc
      | cons b bs =>
        rw [pollLoop_cons_continue t ⟨PollObs.ok "PENDING", dur⟩ (b :: bs)
          (pending_nonterminal dur) hc]
        exact ih (stepElapsed t ⟨PollObs.ok "PENDING", dur⟩)
          (fun x hx => hall x (List.mem_cons_of_mem _ hx)) (by simp) hfold

/-- Helper: the absolute-clock loop started at base b agrees with the
relative-clock loop, since the deadline test only reads the difference from
the base. -/
theorem pollLoopAbs_shift (steps : List PollStep) :
    ∀ b e : Nat, pollLoopAbs b (b + e) steps = pollLoop e steps := by
  induction steps with
  | nil => intro b e; rfl
  | cons s rest ih =>
    intro b e
    obtain ⟨obs, dur⟩ := s
    have harith : stepElapsed (b + e) ⟨obs, dur⟩ - b = stepElapsed e ⟨obs, dur⟩ := by
      simp only [stepElapsed]
      omega
    have hba : stepElapsed (b + e) ⟨obs, dur⟩ = b + stepElapsed e ⟨obs, dur⟩ := by
      simp only [stepElapsed]
      omega
    cases obs with
    | err =>
      simp only [pollLoopAbs, pollLoop, harith]
      by_cases hc : deadlineSecs < stepElapsed e ⟨PollObs.err, dur⟩
      · rw [if_pos hc, if_pos hc]
      · rw [if_neg hc, if_neg hc, hba, ih]
    | ok st =>
      simp only [pollLoopAbs, pollLoop, harith]
      by_cases h1 : st = "SUCCESS"
      · rw [if_pos h1, if_pos h1]
      · rw [if_neg h1, if_neg h1]
        by_cases h2 : st = "FAILURE" ∨ st = "REVOKED"
        · rw [if_pos h2, if_pos h2]
        · rw [if_neg h2, if_neg h2]
          by_cases hc : deadlineSecs < stepElapsed e ⟨PollObs.ok st, dur⟩
          · rw [if_pos hc, if_pos hc]
          · rw [if_neg hc, if_neg hc, hba, ih]

/-- C1: a polling run observing PENDING, PENDING, SUCCESS within the deadline
ends succeeded; a run observing only PENDING past the deadline ends timedOut;
a run whose next observation is FAILURE or REVOKED ends remoteFailed; a
transient lookup error followed by SUCCESS before the deadline ends
succeeded; and a transient lookup error within the deadline never aborts the
loop, it just continues polling. -/
theorem polling_scenarios (d₁ d₂ d₃ t d : Nat) (steps : List PollStep) (s : PollStep) :
    (stepElapsed 0 ⟨PollObs.ok "PENDING", d₁⟩ ≤ deadlineSecs →
      stepElapsed (stepElapsed 0 ⟨PollObs.ok "PENDING", d₁⟩) ⟨PollObs.ok "PENDING", d₂⟩
          ≤ deadlineSecs →
      pollLoop 0 [⟨PollObs.ok "PENDING", d₁⟩, ⟨PollObs.ok "PENDING", d₂⟩,
          ⟨PollObs.ok "SUCCESS", d₃⟩] = some PollOutcome.succeeded)
  ∧ ((∀ x ∈ steps, x.obs = PollObs.ok "PENDING") → steps ≠ [] →
      deadlineSecs < List.foldl stepElapsed 0 steps →
      pollLoop 0 steps = some PollOutcome.timedOut)
  ∧ pollLoop t (⟨PollObs.ok "FAILURE", d⟩ :: steps) = some PollOutcome.remoteFailed
  ∧ pollLoop t (⟨PollObs.ok "REVOKED", d⟩ :: steps) = some PollOutcome.remoteFailed
  ∧ (stepElapsed 0 ⟨PollObs.err, d₁⟩ ≤ deadlineSecs →
      pollLoop 0 [⟨PollObs.err, d₁⟩, ⟨PollObs.ok "SUCCESS", d₂⟩]
        = some PollOutcome.succeeded)
  ∧ (s.obs = PollObs.err → stepElapsed t s ≤ deadlineSecs →
      pollLoop t (s :: steps) = pollLoop (stepElapsed t s) steps) := by
  refine ⟨?_, ?_, ?_, ?_, ?_, ?_⟩
  · intro h1 h2
    rw [pollLoop_cons_continue 0 ⟨PollObs.ok "PENDING", d₁⟩ _
          (pending_nonterminal d₁) (Nat.not_lt.mpr h1),
        pollLoop_cons_continue _ ⟨PollObs.ok "PENDING", d₂⟩ _
          (pending_nonterminal d₂) (Nat.not_lt.mpr h2)]
    simp [pollLoop]
  · exact fun hall hne hf => pollLoop_pending_timeout steps 0 hall hne hf
  · simp [pollLoop]
  · simp [pollLoop]
  · intro h1
    rw [pollLoop_cons_continue 0 ⟨PollObs.err, d₁⟩ _
          (err_nonterminal d₁) (Nat.not_lt.mpr h1)]
    simp [pollLoop]
  · intro hobs hle
    refine pollLoop_cons_continue t s steps ?_ (Nat.not_lt.mpr hle)
    intro st h
    rw [hobs] at h
    exact PollObs.noConfusion h

/-- Witness for C1: the four scenarios evaluated at concrete runs with
zero-duration lookups. -/
theorem polling_scenarios_witness :
    pollLoop 0 [⟨PollObs.ok "PENDING", 0⟩, ⟨PollObs.ok "PENDING", 0⟩,
        ⟨PollObs.ok "SUCCESS", 0⟩] = some PollOutcome.succeeded
  ∧ pollLoop 0 (List.replicate 11 ⟨PollObs.ok "PENDING", 0⟩) = some PollOutcome.timedOut
  ∧ pollLoop 0 [⟨PollObs.ok "FAILURE", 0⟩] = some PollOutcome.remoteFailed
  ∧ pollLoop 0 [⟨PollObs.ok "REVOKED", 0⟩] = some PollOutcome.remoteFailed
  ∧ pollLoop 0 [⟨PollObs.err, 0⟩, ⟨PollObs.ok "SUCCESS", 0⟩]
      = some PollOutcome.succeeded := by
  refine ⟨?_, ?_, ?_, ?_, ?_⟩
  · exact (polling_scenarios 0 0 0 0 0 [] ⟨PollObs.err, 0⟩).1 (by decide) (by decide)
  · exact (polling_scenarios 0 0 0 0 0 (List.replicate 11 ⟨PollObs.ok "PENDING", 0⟩)
      ⟨PollObs.err, 0⟩).2.1 (by decide) (by decide) (by decide)
  · exact (polling_scenarios 0 0 0 0 0 [] ⟨PollObs.err, 0⟩).2.2.1
  · exact (polling_scenarios 0 0 0 0 0 [] ⟨PollObs.err, 0⟩).2.2.2.1
  · exact (polling_scenarios 0 0 0 0 0 [] ⟨PollObs.err, 0⟩).2.2.2.2.1 (by decide)

/-- C9: the upload outcome is independent of the absolute start time and of
the seconds spent staging and submitting — the deadline clock starts only at
entry into the polling phase — and the policy constants are a 1 second sleep
per iteration and a 10 second deadline. -/
theorem deadline_from_poll_entry :
    (∀ (t0 stageDur submitDur start_pos : Nat) (copyRes : Except Unit Nat)
        (submitRes : Except Unit String) (steps : List PollStep),
        putAbs t0 stageDur submitDur start_pos copyRes submitRes steps
          = put start_pos copyRes submitRes steps)
  ∧ sleepSecs = 1 ∧ deadlineSecs = 10 := by
  refine ⟨?_, rfl, rfl⟩
  intro t0 sd ud sp c s steps
  cases c with
  | error e => rfl
  | ok n =>
    cases s with
    | error e => rfl
    | ok tid =>
      have h : pollLoopAbs (t0 + sd + ud) (t0 + sd + ud) steps = pollLoop 0 steps := by
        have h0 := pollLoopAbs_shift steps (t0 + sd + ud) 0
        rwa [Nat.add_zero] at h0
      simp only [putAbs, put, h]

/-- C10: the listener is opened exactly when the startup health check
succeeds; a failed health check makes startup return the error, exiting
nonzero, before the listener is ever opened. -/
theorem health_check_gates_listener :
    (∀ e : Unit, mainStartup (Except.error e)
        = { listenerOpened := false, outcome := StartupOutcome.abortedNonZeroExit })
  ∧ (∀ h : Except Unit Unit, (mainStartup h).listenerOpened = true ↔ h = Except.ok ()) := by
  constructor
  · intro e; rfl
  · intro h
    cases h with
    | error e => simp [mainStartup]
    | ok u => cases u; simp [mainStartup]

/-- C2 counterexample: the unsupported operations do not return an explicit
unsupported-operation result; on a concrete path, del and get panic with the
message not implemented, aborting the call without returning any result. -/
theorem unsupported_ops_panic :
    del ⟨⟩ "inbox.pdf" = StorageOutcome.panicked "not implemented"
  ∧ StorageOutcome.isPanic (del ⟨⟩ "inbox.pdf") = true
  ∧ get ⟨⟩ "inbox.pdf" 0 = StorageOutcome.panicked "not implemented"
  ∧ StorageOutcome.isPanic (get ⟨⟩ "inbox.pdf" 0) = true :=
  ⟨rfl, rfl, rfl, rfl⟩

/-- C2 amended: for every user and path, list returns the empty listing and
cwd succeeds, while get, del, rename, mkd and rmd panic with the message not
implemented — aborting that operation's task — instead of returning an
unsupported-operation result. -/
theorem storage_stub_behavior (u : User) (p q : String) (pos : Nat) :
    get u p pos = StorageOutcome.panicked "not implemented"
  ∧ del u p = StorageOutcome.panicked "not implemented"
  ∧ rename u p q = StorageOutcome.panicked "not implemented"
  ∧ mkd u p = StorageOutcome.panicked "not implemented"
  ∧ rmd u p = StorageOutcome.panicked "not implemented"
  ∧ list u p = StorageOutcome.ok []
  ∧ cwd u p = StorageOutcome.ok () :=
  ⟨rfl, rfl, rfl, rfl, rfl, rfl, rfl⟩

/-- C3 counterexample: with configured pair alice and secret, presenting both
a wrong username and a wrong password yields BadPassword, not BadUser — the
password check runs first, so a wrong username does not always yield
BadUser. -/
theorem authenticate_both_wrong_gives_BadPassword :
    authenticate cfgA "bob" ⟨some "nope"⟩ = Except.error AuthenticationError.BadPassword
  ∧ authenticate cfgA "bob" ⟨some "nope"⟩ ≠ Except.error AuthenticationError.BadUser := by
  have h0 : authenticate cfgA "bob" ⟨some "nope"⟩
      = Except.error AuthenticationError.BadPassword := rfl
  refine ⟨h0, ?_⟩
  rw [h0]
  intro h
  injection h with h2
  simp at h2

/-- C3 amended: when a secret is presented, authenticate grants exactly when
both the username and the secret match the configured pair; a wrong secret
yields BadPassword regardless of the username (the password check runs
first); a wrong username with the correct secret yields BadUser; so the two
checks are independently triggerable. -/
theorem authenticate_checks (a : UsernamePasswordAuthenticator) (u p : String) :
    (authenticate a u ⟨some p⟩ = Except.ok ⟨⟩ ↔ u = a.username ∧ p = a.password)
  ∧ (p ≠ a.password →
      authenticate a u ⟨some p⟩ = Except.error AuthenticationError.BadPassword)
  ∧ (p = a.password → u ≠ a.username →
      authenticate a u ⟨some p⟩ = Except.error AuthenticationError.BadUser) := by
  refine ⟨?_, ?_, ?_⟩
  · constructor
    · intro h
      by_cases h1 : p = a.password
      · by_cases h2 : u = a.username
        · exact ⟨h2, h1⟩
        · simp [authenticate, badPasswordCheck, h1, h2] at h
      · simp [authenticate, badPasswordCheck, h1] at h
    · rintro ⟨h2, h1⟩
      simp [authenticate, badPasswordCheck, h1, h2]
  · intro h1
    simp [authenticate, badPasswordCheck, h1]
  · intro h1 h2
    simp [authenticate, badPasswordCheck, h1, h2]

/-- Witness for C3 amended: with configured pair alice and secret, the
correct pair is granted, a wrong secret with the correct username yields
BadPassword, and a wrong username with the correct secret yields BadUser. -/
theorem authenticate_checks_witness :
    authenticate cfgA "alice" ⟨some "secret"⟩ = Except.ok ⟨⟩
  ∧ authenticate cfgA "alice" ⟨some "nope"⟩ = Except.error AuthenticationError.BadPassword
  ∧ authenticate cfgA "bob" ⟨some "secret"⟩ = Except.error AuthenticationError.BadUser := by
  refine ⟨?_, ?_, ?_⟩
  · exact (authenticate_checks cfgA "alice" "secret").1.mpr ⟨rfl, rfl⟩
  · exact (authenticate_checks cfgA "alice" "nope").2.1 (by decide)
  · exact (authenticate_checks cfgA "bob" "secret").2.2 rfl (by decide)

/-- C4: when no password value is presented at all, authenticate grants
exactly when the username matches, and the configured secret is never
consulted — the result is unchanged under any change of the configured
password. -/
theorem authenticate_no_password (a : UsernamePasswordAuthenticator) (u : String) :
    (authenticate a u ⟨none⟩ = Except.ok ⟨⟩ ↔ u = a.username)
  ∧ (∀ pw : String, authenticate ⟨a.username, pw⟩ u ⟨none⟩ = authenticate a u ⟨none⟩) := by
  have hbp : badPasswordCheck a ⟨none⟩ = false := rfl
  constructor
  · by_cases h2 : u = a.username
    · simp [authenticate, hbp, h2]
    · simp [authenticate, hbp, h2]
  · intro pw
    simp [authenticate, badPasswordCheck]

/-- C5 counterexample: a response whose first element lacks the status field
does not default to PENDING; it fails deserialization, so task_status
returns an error. -/
theorem task_status_missing_field_is_error :
    task_status [⟨none⟩] = Except.error ()
  ∧ task_status [⟨none⟩] ≠ Except.ok ⟨"PENDING"⟩ := by
  refine ⟨rfl, ?_⟩
  intro h
  simp [task_status, deserializeTasks, deserializeTask] at h

/-- C5 amended: an empty task array defaults to status PENDING and an
unrecognized status string keeps the bridge polling; but a response whose
first element lacks the status field is a deserialization error of the
lookup — surfaced as a transient lookup error, which the polling loop also
absorbs while within the deadline — not a PENDING default. -/
theorem task_status_defaults (s : String) (d t : Nat) (rest : List PollStep) :
    task_status [] = Except.ok ⟨"PENDING"⟩
  ∧ (s ≠ "SUCCESS" → s ≠ "FAILURE" → s ≠ "REVOKED" →
      stepElapsed t ⟨PollObs.ok s, d⟩ ≤ deadlineSecs →
      pollLoop t (⟨PollObs.ok s, d⟩ :: rest)
        = pollLoop (stepElapsed t ⟨PollObs.ok s, d⟩) rest)
  ∧ task_status [⟨none⟩] = Except.error ()
  ∧ (stepElapsed t ⟨PollObs.err, d⟩ ≤ deadlineSecs →
      pollLoop t (⟨PollObs.err, d⟩ :: rest)
        = pollLoop (stepElapsed t ⟨PollObs.err, d⟩) rest) := by
  refine ⟨rfl, ?_, rfl, ?_⟩
  · intro h1 h2 h3 hle
    refine pollLoop_cons_continue t ⟨PollObs.ok s, d⟩ rest ?_ (Nat.not_lt.mpr hle)
    intro st h
    have h' : PollObs.ok s = PollObs.ok st := h
    injection h' with h4
    subst h4
    exact ⟨h1, h2, h3⟩
  · intro hle
    exact pollLoop_cons_continue t ⟨PollObs.err, d⟩ rest (err_nonterminal d)
      (Nat.not_lt.mpr hle)

/-- Witness for C5 amended: concrete instances — empty array defaults to
PENDING, a STARTED status within the deadline continues the loop, a missing
status field is an error, an err observation within the deadline continues
the loop. -/
theorem task_status_defaults_witness :
    task_status [] = Except.ok ⟨"PENDING"⟩
  ∧ pollLoop 0 [⟨PollObs.ok "STARTED", 0⟩]
      = pollLoop (stepElapsed 0 ⟨PollObs.ok "STARTED", 0⟩) []
  ∧ task_status [⟨none⟩] = Except.error ()
  ∧ pollLoop 0 [⟨PollObs.err, 0⟩] = pollLoop (stepElapsed 0 ⟨PollObs.err, 0⟩) [] := by
  have h := task_status_defaults "STARTED" 0 0 []
  exact ⟨h.1, h.2.1 (by decide) (by decide) (by decide) (by decide),
    h.2.2.1, h.2.2.2 (by decide)⟩

/-- C6: every trace that put returns has the staged temp file removed, on all
terminal outcomes alike — success, remote task failure, timeout, lookup
error timeout, submit failure and copy failure. -/
theorem put_always_removes_tempfile (start_pos : Nat) (copyRes : Except Unit Nat)
    (submitRes : Except Unit String) (steps : List PollStep) (tr : PutTrace)
    (h : put start_pos copyRes submitRes steps = some tr) :
    tr.tempRemoved = true := by
  cases copyRes with
  | error e =>
    simp only [put, Option.some.injEq] at h
    subst h
    rfl
  | ok n =>
    cases submitRes with
    | error e =>
      simp only [put, Option.some.injEq] at h
      subst h
      rfl
    | ok tid =>
      simp only [put] at h
      cases hp : pollLoop 0 steps with
      | none => rw [hp] at h; simp at h
      | some o =>
        rw [hp] at h
        cases o <;> simp only [Option.some.injEq] at h <;> subst h <;> rfl

/-- Witness for C6: a concrete successful upload at offset 0 with 3 streamed
bytes has its staged file removed. -/
theorem put_always_removes_tempfile_witness : trOkThree.tempRemoved = true :=
  put_always_removes_tempfile 0 (Except.ok 3) (Except.ok "t")
    [⟨PollObs.ok "SUCCESS", 0⟩] trOkThree rfl

/-- C7: for every upload whose stream copy succeeds with n bytes, the staged
file length and the write cursor both equal the resume offset before the
copy begins, and the final staged length equals the offset plus the streamed
byte count. -/
theorem put_resume_offset (start_pos n : Nat) (submitRes : Except Unit String)
    (steps : List PollStep) (tr : PutTrace)
    (h : put start_pos (Except.ok n) submitRes steps = some tr) :
    tr.tempLenBeforeCopy = start_pos ∧ tr.cursorBeforeCopy = start_pos
      ∧ tr.tempLenFinal = start_pos + n := by
  cases submitRes with
  | error e =>
    simp only [put, Option.some.injEq] at h
    subst h
    exact ⟨rfl, rfl, rfl⟩
  | ok tid =>
    simp only [put] at h
    cases hp : pollLoop 0 steps with
    | none => rw [hp] at h; simp at h
    | some o =>
      rw [hp] at h
      cases o <;> simp only [Option.some.injEq] at h <;> subst h <;> exact ⟨rfl, rfl, rfl⟩

/-- Witness for C7: a concrete upload resumed at offset 2 with 5 streamed
bytes stages at length 2 with the cursor at 2 and ends at length 7. -/
theorem put_resume_offset_witness :
    trResume.tempLenBeforeCopy = 2 ∧ trResume.cursorBeforeCopy = 2
      ∧ trResume.tempLenFinal = 2 + 5 :=
  put_resume_offset 2 5 (Except.ok "t") [⟨PollObs.ok "SUCCESS", 0⟩] trResume rfl

/-- C8: for an upload at offset 0 whose staging copied n bytes and whose
submission succeeded, the result is successful exactly when the polling loop
ends succeeded, and a successful result returns byte count n, which equals
the staged file length and the length of the file handed to the remote
submission. -/
theorem put_success_byte_count (n : Nat) (tid : String) (steps : List PollStep)
    (tr : PutTrace) (h : put 0 (Except.ok n) (Except.ok tid) steps = some tr) :
    (tr.result.isOk = true ↔ pollLoop 0 steps = some PollOutcome.succeeded)
  ∧ (tr.result.isOk = true →
      tr.result.bytes? = some n ∧ tr.submitted = some n ∧ tr.tempLenFinal = n) := by
  simp only [put] at h
  cases hp : pollLoop 0 steps with
  | none => rw [hp] at h; simp at h
  | some o =>
    rw [hp] at h
    cases o <;> simp only [Option.some.injEq] at h <;> subst h <;>
      simp [PutResult.isOk, PutResult.bytes?]

/-- Witness for C8: a concrete upload at offset 0 with 4 streamed bytes and a
successful poll run returns byte count 4, which equals the staged and
submitted lengths. -/
theorem put_success_byte_count_witness :
    pollLoop 0 [⟨PollObs.ok "SUCCESS", 0⟩] = some PollOutcome.succeeded
  ∧ trOkFour.result.bytes? = some 4 ∧ trOkFour.submitted = some 4
      ∧ trOkFour.tempLenFinal = 4 := by
  have h := put_success_byte_count 4 "t" [⟨PollObs.ok "SUCCESS", 0⟩] trOkFour rfl
  exact ⟨h.1.mp rfl, h.2 rfl⟩

end Bridge
